import Mathlib

/-!
Verification of the inventory-projection and risk-classification core of the
meeting-data planning tool.  The Python modules `utils/dw309.py`,
`utils/order_planning.py`, `utils/forecast.py` and `utils/prediction_review.py`
are shallowly embedded below: dictionaries become total functions into
`Option ℚ` (with `none` standing for an absent key), Python numbers become
exact rationals, and a Python `KeyError` is modelled by an `Option`-valued
result.  Python's `round(x, 1)` (round half to even, one decimal) is modelled
exactly on ℚ; binary floating-point representation effects are abstracted.
-/

/-- The monthly data table: month label → item id → field name → stored value.
`none` models an absent key at any of the three levels (Python's chained
`dict.get` with `{}` defaults). -/
abbrev MonthlyData := String → String → String → Option ℚ

/-- Round half to even to the nearest integer, as Python's builtin `round`
behaves on exact values. -/
def round_half_even (x : ℚ) : ℤ :=
  let n := ⌊x⌋
  let r := x - n
  if r < 1 / 2 then n
  else if 1 / 2 < r then n + 1
  else if n % 2 = 0 then n else n + 1

/-- Python's `round(x, 1)`: one decimal place, half to even. -/
def round1 (x : ℚ) : ℚ := (round_half_even (10 * x) : ℚ) / 10

/-! ## utils/dw309.py -/

/-- From `calculate_usage_average` (utils/dw309.py lines 18–31): collect the
usage-forecast figures of 2026-01..03; if none is present fall back to the
historical outgoing figures of 2025-10..12; the average of an empty collection
is 0. -/
def calculate_usage_average (md : MonthlyData) (item_id : String) : ℚ :=
  let candidates := ["2026-01", "2026-02", "2026-03"].filterMap
    (fun month => md month item_id "使用量予測")
  let pool :=
    if candidates = [] then
      ["2025-10", "2025-11", "2025-12"].filterMap (fun month => md month item_id "出庫")
    else candidates
  if pool = [] then 0 else pool.sum / (pool.length : ℚ)

/-- The horizon of `build_dw309_forecast` with its default arguments
(`start_month = "2026-01"`, `months_ahead = 7`): `_month_range` yields eight
consecutive month labels. -/
def dw309_months : List String :=
  ["2026-01", "2026-02", "2026-03", "2026-04", "2026-05", "2026-06", "2026-07", "2026-08"]

/-- Which payload field supplies the incoming figure for a given month in
`build_dw309_forecast` (utils/dw309.py lines 66–77). -/
def dw309_incoming_field (month : String) : String :=
  if month = "2026-01" then "入荷見込み"
  else if month = "2026-02" then "手配済み"
  else if month = "2026-03" then "入庫"
  else "入庫"

/-- The (incoming, usage) pair extracted for one month of the horizon
(utils/dw309.py lines 65–77): a missing incoming field defaults to 0, a missing
usage-forecast field defaults to the computed usage average. -/
def dw309_sched_entry (md : MonthlyData) (item_id : String) (month : String) : ℚ × ℚ :=
  ((md month item_id (dw309_incoming_field month)).getD 0,
   (md month item_id "使用量予測").getD (calculate_usage_average md item_id))

/-- The full per-month (incoming, usage) schedule read by `build_dw309_forecast`
before the order-quantity injection. -/
def dw309_schedule (md : MonthlyData) (item_id : String) : List (ℚ × ℚ) :=
  dw309_months.map (dw309_sched_entry md item_id)

/-- Models `if index == len(months) - 1: incoming += order_qty`
(utils/dw309.py lines 79–80): the order quantity is added to the incoming
figure of the final schedule entry only. -/
def inject_last : List (ℚ × ℚ) → ℚ → List (ℚ × ℚ)
  | [], _ => []
  | [p], qty => [(p.1 + qty, p.2)]
  | p :: q :: rest, qty => p :: inject_last (q :: rest) qty

/-- The exact per-month loop state of `build_dw309_forecast`
(utils/dw309.py lines 62–103): for each schedule entry, the tuple
(month_start, incoming, usage, month_end) with
`month_end = month_start + incoming - usage`, the next month starting from
this month's ending stock.  No clamping is applied. -/
def dw309_states (start : ℚ) : List (ℚ × ℚ) → List (ℚ × ℚ × ℚ × ℚ)
  | [] => []
  | p :: rest =>
      (start, p.1, p.2, start + p.1 - p.2) :: dw309_states (start + p.1 - p.2) rest

/-- The loop variable `month_start` after the loop of `build_dw309_forecast`,
returned as `summary["final_month_end"]` (utils/dw309.py line 108). -/
def dw309_final (start : ℚ) : List (ℚ × ℚ) → ℚ
  | [] => start
  | p :: rest => dw309_final (start + p.1 - p.2) rest

/-- The four-way status label of `build_dw309_forecast`
(utils/dw309.py lines 84–91). -/
def dw309_status (month_end safety_stock max_stock : ℚ) : String :=
  if month_end < 0 then "🔴欠品"
  else if month_end < safety_stock then "🔴危険"
  else if month_end > max_stock then "🟠過剰"
  else "✅適正"

/-- One display row of the DW-309 forecast table (utils/dw309.py lines 93–102):
numeric figures are rounded to one decimal for display, the status is computed
from the exact ending stock. -/
structure Dw309Row where
  month : String
  month_start : ℚ
  incoming : ℚ
  usage : ℚ
  month_end : ℚ
  status : String
deriving DecidableEq, Repr

/-- The summary dictionary of `build_dw309_forecast`
(utils/dw309.py lines 106–110). -/
structure Dw309Summary where
  usage_avg : ℚ
  final_month_end : ℚ
  final_month : String
deriving DecidableEq, Repr

/-- The display rows built from the exact loop states. -/
def dw309_rows (months : List String) (states : List (ℚ × ℚ × ℚ × ℚ))
    (safety_stock max_stock : ℚ) : List Dw309Row :=
  (months.zip states).map (fun ms =>
    Dw309Row.mk ms.1 (round1 ms.2.1) (round1 ms.2.2.1) (round1 ms.2.2.2.1)
      (round1 ms.2.2.2.2) (dw309_status ms.2.2.2.2 safety_stock max_stock))

/-- From `build_dw309_forecast` (utils/dw309.py lines 49–111) at its default
`start_month`/`months_ahead`: extract the schedule, inject the order quantity
into the final month, accumulate the month states left to right, and return the
display rows together with the summary. -/
def build_dw309_forecast (md : MonthlyData) (item_id : String)
    (current_stock safety_stock max_stock order_qty : ℚ) :
    List Dw309Row × Dw309Summary :=
  let sched := inject_last (dw309_schedule md item_id) order_qty
  (dw309_rows dw309_months (dw309_states current_stock sched) safety_stock max_stock,
   Dw309Summary.mk (calculate_usage_average md item_id)
     (dw309_final current_stock sched) "2026-08")

/-! ### Helper lemmas for the projection loop -/

lemma dw309_states_getElem_eq (sched : List (ℚ × ℚ)) :
    ∀ (start : ℚ) (i : ℕ) (st : ℚ × ℚ × ℚ × ℚ),
      (dw309_states start sched)[i]? = some st →
        st.1 = start + ((sched.take i).map (fun p => p.1 - p.2)).sum ∧
        st.2.2.2 = start + ((sched.take (i + 1)).map (fun p => p.1 - p.2)).sum := by
  induction sched with
  | nil =>
      intro start i st h
      simp [dw309_states] at h
  | cons p rest ih =>
      intro start i st h
      cases i with
      | zero =>
          simp [dw309_states] at h
          subst h
          constructor
          · simp
          · simp
            ring
      | succ i =>
          simp only [dw309_states, List.getElem?_cons_succ] at h
          obtain ⟨h1, h2⟩ := ih (start + p.1 - p.2) i st h
          constructor
          · rw [h1]
            simp [List.sum_cons]
            ring
          · rw [h2]
            simp [List.sum_cons]
            ring

lemma dw309_final_eq_sum (sched : List (ℚ × ℚ)) :
    ∀ start : ℚ, dw309_final start sched = start + (sched.map (fun p => p.1 - p.2)).sum := by
  induction sched with
  | nil => intro start; simp [dw309_final]
  | cons p rest ih =>
      intro start
      rw [dw309_final, ih]
      simp [List.sum_cons]
      ring

/-! ## utils/order_planning.py -/

/-- An item master record as loaded from `master_items.json`
(scripts/generate_dummy_data.py lines 29–49). -/
structure Item where
  item_id : String
  name : String
  safety_stock : ℚ
  max_stock : ℚ
  is_long_leadtime : Bool
deriving DecidableEq, Repr

/-- From `calculate_normal_order_average` (utils/order_planning.py lines 8–17):
average of six historical/confirmed incoming figures, each defaulting to 0 when
absent.  The source additionally filters out `None` entries, which after the
`get(..., 0)` defaults never occur in this model. -/
def calculate_normal_order_average (md : MonthlyData) (item_id : String) : ℚ :=
  let values : List ℚ :=
    (["2025-09", "2025-10", "2025-11", "2025-12"].map
        (fun month => (md month item_id "入庫").getD 0)) ++
      [(md "2026-01" item_id "入荷見込み").getD 0,
       (md "2026-02" item_id "手配済み").getD 0]
  if values = [] then 0 else values.sum / (values.length : ℚ)

/-- From `calculate_future_inventory` (utils/order_planning.py lines 30–35). -/
def calculate_future_inventory (next_month_end order_qty next_next_usage : ℚ) : ℚ :=
  next_month_end + order_qty - next_next_usage

/-- From `risk_level` (utils/order_planning.py lines 38–43): the three-way
classification of a projected two-months-ahead ending stock. -/
def risk_level (next_next_end safety_stock max_stock : ℚ) : String :=
  if next_next_end < safety_stock then "欠品"
  else if next_next_end > max_stock then "過剰"
  else "適正"

/-- One row of the order-planning table built by `build_order_dataframe`
(utils/order_planning.py lines 59–69). -/
structure OrderRow where
  item_id : String
  next_month_end : ℚ
  next_next_usage : ℚ
  order_qty : ℚ
  next_next_end : ℚ
  safety_stock : ℚ
  max_stock : ℚ
deriving DecidableEq, Repr

/-- From `build_order_dataframe` (utils/order_planning.py lines 46–70): one row
per master item, every missing figure defaulting to 0. -/
def build_order_dataframe (master_items : List Item) (md : MonthlyData)
    (next_month_forecast : String → Option ℚ) (orders : String → Option ℚ) :
    List OrderRow :=
  master_items.map (fun item =>
    let next_month_end := (next_month_forecast item.item_id).getD 0
    let next_next_usage := (md "2026-03" item.item_id "使用量予測").getD 0
    let order_qty := (orders item.item_id).getD 0
    OrderRow.mk item.item_id next_month_end next_next_usage order_qty
      (calculate_future_inventory next_month_end order_qty next_next_usage)
      item.safety_stock item.max_stock)

/-- From `discussion_reasons` (utils/order_planning.py lines 73–107): run the
four heuristic checks in order, each appending its tag and lowering the
priority with `min`; the sentinel 99 becomes 4 when nothing fired. -/
def discussion_reasons (row : OrderRow) (normal_order_avg next_month_buffer factor : ℚ) :
    ℕ × List String :=
  let s0 : ℕ × List String := (99, [])
  let s1 :=
    if row.next_next_end < row.safety_stock then (min s0.1 1, s0.2 ++ ["欠品リスク"]) else s0
  let s2 :=
    if row.next_next_end > row.max_stock then (min s1.1 2, s1.2 ++ ["過剰在庫リスク"]) else s1
  let s3 :=
    if normal_order_avg > 0 then
      if row.order_qty = 0 ∨ row.order_qty ≥ normal_order_avg * 2 then
        (min s2.1 3, s2.2 ++ ["発注量異常"])
      else s2
    else
      if row.order_qty = 0 then (min s2.1 3, s2.2 ++ ["発注量異常"]) else s2
  let s4 :=
    if next_month_buffer < row.safety_stock * factor then
      (min s3.1 3, s3.2 ++ ["来月在庫不足"])
    else s3
  (if s4.1 = 99 then 4 else s4.1, s4.2)

/-- Written from the spec (§4.3), for comparison with `discussion_reasons`:
the list of priorities of the checks that trigger on a row — check 1 has
priority 1, check 2 priority 2, checks 3 and 4 priority 3. -/
def spec_triggered_priorities (row : OrderRow) (normal_order_avg next_month_buffer factor : ℚ) :
    List ℕ :=
  (if row.next_next_end < row.safety_stock then [1] else []) ++
    (if row.next_next_end > row.max_stock then [2] else []) ++
    (if (normal_order_avg > 0 ∧ (row.order_qty = 0 ∨ row.order_qty ≥ normal_order_avg * 2)) ∨
        (¬normal_order_avg > 0 ∧ row.order_qty = 0) then [3] else []) ++
    (if next_month_buffer < row.safety_stock * factor then [3] else [])

/-- One entry of the discussion list built in `app.py` (lines 353–367).  The
source serialises `reasons` as a " / "-joined string for display; the list
itself is kept here. -/
structure DiscussionRow where
  priority : ℕ
  item_id : String
  name : String
  next_month_end : ℚ
  next_next_usage : ℚ
  order_qty : ℚ
  next_next_end : ℚ
  risk : String
  reasons : List String
  safety_stock : ℚ
  max_stock : ℚ
deriving DecidableEq, Repr

/-- From `build_discussion_rows` (src/app.py lines 345–368): the source rows
carry the リスク column added beforehand via `risk_level` (app.py lines
381–384), hence each input is an `OrderRow` paired with its risk string.  A row
enters the discussion list only when its reasons list is nonempty. -/
def build_discussion_rows (name_map : String → Option String) (md : MonthlyData)
    (factor : ℚ) (source : List (OrderRow × String)) : List DiscussionRow :=
  source.filterMap (fun rs =>
    let row := rs.1
    let normal_avg := calculate_normal_order_average md row.item_id
    let pr := discussion_reasons row normal_avg row.next_month_end factor
    if pr.2 ≠ [] then
      some (DiscussionRow.mk pr.1 row.item_id ((name_map row.item_id).getD row.item_id)
        row.next_month_end row.next_next_usage row.order_qty row.next_next_end rs.2
        pr.2 row.safety_stock row.max_stock)
    else none)

/-! ## utils/forecast.py -/

/-- One row of the two-month inventory forecast table
(utils/forecast.py lines 24–37). -/
structure ForecastRow where
  item_id : String
  current_stock : ℚ
  incoming : ℚ
  usage_current : ℚ
  month_end_forecast : ℚ
  prepared : ℚ
  usage_next : ℚ
  next_month_end_forecast : ℚ
  safety_stock : ℚ
  max_stock : ℚ
deriving DecidableEq, Repr

/-- From `calculate_inventory_forecast` (utils/forecast.py lines 8–39).  The
source indexes `monthly_data["2026-01"][item_id]` and the individual fields
directly, raising `KeyError` when a month, item or field is absent; a raised
exception is modelled as `none`. -/
def calculate_inventory_forecast (md : MonthlyData) (master_items : List Item) :
    Option (List ForecastRow) :=
  master_items.mapM (fun item => do
    let current_stock ← md "2026-01" item.item_id "現在庫"
    let incoming ← md "2026-01" item.item_id "入荷見込み"
    let usage_current ← md "2026-01" item.item_id "使用量予測"
    let month_end_forecast := current_stock + incoming - usage_current
    let prepared ← md "2026-02" item.item_id "手配済み"
    let usage_next ← md "2026-02" item.item_id "使用量予測"
    some (ForecastRow.mk item.item_id current_stock incoming usage_current
      month_end_forecast prepared usage_next
      (month_end_forecast + prepared - usage_next) item.safety_stock item.max_stock))

/-! ## utils/prediction_review.py -/

/-- One row of the prediction-accuracy table
(utils/prediction_review.py lines 23–33); the error-rate column is rounded to
one decimal for display. -/
structure AccuracyRow where
  item : String
  predicted_usage : ℚ
  actual_usage : ℚ
  diff : ℚ
  error_rate_pct : ℚ
  predicted_stock : ℚ
  actual_stock : ℚ
deriving DecidableEq, Repr

/-- The per-item computation of `calculate_prediction_accuracy`
(utils/prediction_review.py lines 13–33): usage is backed out from stock
deltas, and the error rate is 0 when the predicted usage is 0. -/
def accuracy_row (md : MonthlyData) (previous_month last_month item : String) : AccuracyRow :=
  let start_stock := (md previous_month item "在庫").getD 0
  let incoming := (md last_month item "入庫").getD 0
  let predicted_stock := (md last_month item "予測在庫").getD 0
  let actual_stock := (md last_month item "在庫").getD 0
  let predicted_usage := start_stock + incoming - predicted_stock
  let actual_usage := start_stock + incoming - actual_stock
  let diff := actual_usage - predicted_usage
  let error_rate := if predicted_usage ≠ 0 then diff / predicted_usage * 100 else 0
  AccuracyRow.mk item predicted_usage actual_usage diff (round1 error_rate)
    predicted_stock actual_stock

/-- From `calculate_prediction_accuracy` (utils/prediction_review.py lines
8–35): one row per item of the `last_month` payload, the previous month
hardcoded to "2025-11". -/
def calculate_prediction_accuracy (md : MonthlyData) (items : List String)
    (last_month : String) : List AccuracyRow :=
  items.map (accuracy_row md "2025-11" last_month)

/-! ## Claim theorems -/

/-- C1: for every starting stock and every per-month (incoming, usage)
schedule, the projection loop of `build_dw309_forecast` satisfies the
telescoping-sum identity — the ending stock of month i is the starting stock
plus the sum over k ≤ i of (incoming_k − usage_k), each month starts from the
previous month's ending stock with no clamping, and the summary's final ending
stock is the starting stock plus the sum over the whole injected schedule. -/
theorem C1_dw309_telescoping (start : ℚ) (sched : List (ℚ × ℚ)) :
    (∀ (i : ℕ) (st : ℚ × ℚ × ℚ × ℚ), (dw309_states start sched)[i]? = some st →
        st.2.2.2 = start + ((sched.take (i + 1)).map (fun p => p.1 - p.2)).sum) ∧
    (∀ (i : ℕ) (st st2 : ℚ × ℚ × ℚ × ℚ), (dw309_states start sched)[i]? = some st →
        (dw309_states start sched)[i + 1]? = some st2 → st2.1 = st.2.2.2) ∧
    (∀ (md : MonthlyData) (item_id : String) (current safety maxst qty : ℚ),
        (build_dw309_forecast md item_id current safety maxst qty).2.final_month_end
          = current +
            ((inject_last (dw309_schedule md item_id) qty).map (fun p => p.1 - p.2)).sum) := by
  refine ⟨?_, ?_, ?_⟩
  · intro i st h
    exact (dw309_states_getElem_eq sched start i st h).2
  · intro i st st2 h h2
    rw [(dw309_states_getElem_eq sched start (i + 1) st2 h2).1,
      (dw309_states_getElem_eq sched start i st h).2]
  · intro md item_id current safety maxst qty
    exact dw309_final_eq_sum (inject_last (dw309_schedule md item_id) qty) current

/-- Witness for C1: the second month of the schedule [(5, 3), (4, 1)] started
from 2 ends at 7 = 2 + (5 − 3) + (4 − 1). -/
theorem C1_witness :
    ((4 : ℚ), (4 : ℚ), (1 : ℚ), (7 : ℚ)).2.2.2
      = 2 + (([((5 : ℚ), (3 : ℚ)), (4, 1)].take 2).map (fun p => p.1 - p.2)).sum :=
  (C1_dw309_telescoping 2 [(5, 3), (4, 1)]).1 1 (4, 4, 1, 7)
    (by norm_num [dw309_states, List.getElem?_cons_succ, List.getElem?_cons_zero])

/-- C2 counterexample: the claim quantifies over every (safety, max) pair, but
when max < safety an ending stock exactly equal to safety is classified 過剰,
not 適正, and in the four-way classifier a negative safety threshold makes the
ending stock equal to safety classify as 欠品. -/
theorem C2_counterexample :
    risk_level 1 1 0 ≠ "適正" ∧ dw309_status (-1) (-1) 5 ≠ "✅適正" := by
  constructor <;> decide

/-- C2 (amended: thresholds with 0 ≤ safety ≤ max, the data-model assumption):
the classifiers are boundary-inclusive on the safe side — ending stock equal to
safety or to max is 適正, strictly below safety is the unsafe classification
(欠品 in the three-way classifier; 欠品 below zero and 危険 between zero and
safety in the four-way one), strictly above max is 過剰. -/
theorem C2_risk_level_boundaries (safety maxst : ℚ) (h0 : 0 ≤ safety) (hsm : safety ≤ maxst) :
    risk_level safety safety maxst = "適正" ∧
    risk_level maxst safety maxst = "適正" ∧
    (∀ e : ℚ, e < safety → risk_level e safety maxst = "欠品") ∧
    (∀ e : ℚ, maxst < e → risk_level e safety maxst = "過剰") ∧
    dw309_status safety safety maxst = "✅適正" ∧
    dw309_status maxst safety maxst = "✅適正" ∧
    (∀ e : ℚ, e < 0 → dw309_status e safety maxst = "🔴欠品") ∧
    (∀ e : ℚ, 0 ≤ e → e < safety → dw309_status e safety maxst = "🔴危険") ∧
    (∀ e : ℚ, maxst < e → dw309_status e safety maxst = "🟠過剰") := by
  refine ⟨?_, ?_, ?_, ?_, ?_, ?_, ?_, ?_, ?_⟩ <;>
    first
      | (intro e he1 he2
         simp only [risk_level, dw309_status]
         split_ifs <;> first | rfl | linarith)
      | (intro e he
         simp only [risk_level, dw309_status]
         split_ifs <;> first | rfl | linarith)
      | (simp only [risk_level, dw309_status]
         split_ifs <;> first | rfl | linarith)

/-- Witness for C2: with safety 1 and max 2, an ending stock of exactly 1 is
classified 適正. -/
theorem C2_witness : risk_level 1 1 2 = "適正" :=
  (C2_risk_level_boundaries 1 2 (by norm_num) (by norm_num)).1

/-- C3: the injected order quantity is added to the incoming figure of the
final schedule entry only, every earlier display row of
`build_dw309_forecast` is identical to the zero-injection run, and the final
ending stock is the zero-injection final ending stock plus the injected
quantity. -/
theorem C3_injection_final_month_only (md : MonthlyData) (item_id : String)
    (current safety maxst qty : ℚ) :
    (inject_last (dw309_schedule md item_id) qty).dropLast
      = (dw309_schedule md item_id).dropLast ∧
    (inject_last (dw309_schedule md item_id) qty).getLast?
      = (dw309_schedule md item_id).getLast?.map (fun p => (p.1 + qty, p.2)) ∧
    (build_dw309_forecast md item_id current safety maxst qty).1.dropLast
      = (build_dw309_forecast md item_id current safety maxst 0).1.dropLast ∧
    (build_dw309_forecast md item_id current safety maxst qty).2.final_month_end
      = (build_dw309_forecast md item_id current safety maxst 0).2.final_month_end + qty := by
  refine ⟨rfl, rfl, rfl, ?_⟩
  show dw309_final current (inject_last (dw309_schedule md item_id) qty)
      = dw309_final current (inject_last (dw309_schedule md item_id) 0) + qty
  rw [dw309_final_eq_sum, dw309_final_eq_sum]
  simp only [dw309_schedule, dw309_months, inject_last, List.map_cons, List.map_nil,
    List.sum_cons, List.sum_nil]
  ring

set_option maxHeartbeats 4000000 in
/-- C4: whenever at least one check triggers, the priority returned by
`discussion_reasons` is the minimum of the triggered checks' priorities
(check 1 → 1, check 2 → 2, checks 3 and 4 → 3); in particular a row
triggering only check 3 gets priority exactly 3. -/
theorem C4_priority_is_min (row : OrderRow) (avg buffer factor : ℚ) :
    (spec_triggered_priorities row avg buffer factor ≠ [] →
      (discussion_reasons row avg buffer factor).1 ∈
          spec_triggered_priorities row avg buffer factor ∧
        ∀ p ∈ spec_triggered_priorities row avg buffer factor,
          (discussion_reasons row avg buffer factor).1 ≤ p) ∧
    (¬row.next_next_end < row.safety_stock → ¬row.next_next_end > row.max_stock →
      ((avg > 0 ∧ (row.order_qty = 0 ∨ row.order_qty ≥ avg * 2)) ∨
        (¬avg > 0 ∧ row.order_qty = 0)) →
      ¬buffer < row.safety_stock * factor →
      (discussion_reasons row avg buffer factor).1 = 3) := by
  by_cases h1 : row.next_next_end < row.safety_stock <;>
    by_cases h2 : row.next_next_end > row.max_stock <;>
    by_cases h3 : avg > 0 <;>
    by_cases h4 : row.order_qty = 0 <;>
    by_cases h5 : row.order_qty ≥ avg * 2 <;>
    by_cases h6 : buffer < row.safety_stock * factor <;>
    simp [discussion_reasons, spec_triggered_priorities, h1, h2, h3, h4, h5, h6]

/-- Witness for C4: a row whose two-months-ahead stock sits between its
thresholds, whose order is at least twice the normal-order average, and whose
next-month buffer is ample, gets priority exactly 3. -/
theorem C4_witness :
    (discussion_reasons (OrderRow.mk "DW-002" 0 0 5 10 10 20) 2 50 1).1 = 3 :=
  (C4_priority_is_min (OrderRow.mk "DW-002" 0 0 5 10 10 20) 2 50 1).2
    (by norm_num) (by norm_num) (by norm_num) (by norm_num)

set_option maxHeartbeats 4000000 in
/-- C5: the abnormal-order tag is asymmetric in the historical normal-order
average — with a zero average it appears exactly when the order quantity is 0,
and with a strictly positive average exactly when the order quantity is 0 or at
least twice the average. -/
theorem C5_abnormal_order_asymmetry (row : OrderRow) (avg buffer factor : ℚ) :
    (avg = 0 →
      ("発注量異常" ∈ (discussion_reasons row avg buffer factor).2 ↔
        row.order_qty = 0)) ∧
    (0 < avg →
      ("発注量異常" ∈ (discussion_reasons row avg buffer factor).2 ↔
        (row.order_qty = 0 ∨ row.order_qty ≥ avg * 2))) := by
  constructor
  · intro havg
    subst havg
    by_cases h1 : row.next_next_end < row.safety_stock <;>
      by_cases h2 : row.next_next_end > row.max_stock <;>
      by_cases h4 : row.order_qty = 0 <;>
      by_cases h6 : buffer < row.safety_stock * factor <;>
      simp [discussion_reasons, h1, h2, h4, h6]
  · intro havg
    by_cases h1 : row.next_next_end < row.safety_stock <;>
      by_cases h2 : row.next_next_end > row.max_stock <;>
      by_cases h4 : row.order_qty = 0 <;>
      by_cases h5 : row.order_qty ≥ avg * 2 <;>
      by_cases h6 : buffer < row.safety_stock * factor <;>
      simp [discussion_reasons, havg, h1, h2, h4, h5, h6]

/-- Witness for C5: with a zero average and a zero order quantity the
abnormal-order tag is present. -/
theorem C5_witness :
    "発注量異常" ∈ (discussion_reasons (OrderRow.mk "DW-003" 0 0 0 10 5 20) 0 50 1).2 :=
  ((C5_abnormal_order_asymmetry (OrderRow.mk "DW-003" 0 0 0 10 5 20) 0 50 1).1 rfl).mpr rfl

/-- A monthly-data mapping with no months, items or fields at all. -/
def empty_monthly_data : MonthlyData := fun _ _ _ => none

/-- A row on which none of the four heuristic checks fires: two-months-ahead
stock exactly at the safety threshold and below max, a nonzero order against a
zero normal-order average, and an ample next-month buffer. -/
def c6_sample_row : OrderRow := OrderRow.mk "DW-004" 100 0 1 5 5 10

set_option maxHeartbeats 1000000 in
/-- Helper: `discussion_reasons` returns priority 4 exactly when its reasons
list is empty, i.e. when no check fired. -/
lemma discussion_priority_four_iff (row : OrderRow) (avg buffer factor : ℚ) :
    (discussion_reasons row avg buffer factor).1 = 4 ↔
      (discussion_reasons row avg buffer factor).2 = [] := by
  by_cases h1 : row.next_next_end < row.safety_stock <;>
    by_cases h2 : row.next_next_end > row.max_stock <;>
    by_cases h3 : avg > 0 <;>
    by_cases h4 : row.order_qty = 0 <;>
    by_cases h5 : row.order_qty ≥ avg * 2 <;>
    by_cases h6 : buffer < row.safety_stock * factor <;>
    simp [discussion_reasons, h1, h2, h3, h4, h5, h6]

/-- C6 counterexample: on a row where no check fires, `discussion_reasons`
returns priority 4 with an empty reasons list, so priority 4 is assigned
precisely when zero checks fired — not when "at least one non-critical check
fired" as the claim states. -/
theorem C6_counterexample :
    discussion_reasons c6_sample_row 0 100 1 = (4, []) ∧
    spec_triggered_priorities c6_sample_row 0 100 1 = [] := by
  constructor <;>
    norm_num [discussion_reasons, spec_triggered_priorities, c6_sample_row]

/-- C6 (amended): `discussion_reasons` returns priority 4 exactly when no
check fired, in which case its reasons list is empty and the row is excluded
from the discussion list; hence every entry of `build_discussion_rows` has a
nonempty reasons list and a priority other than 4. -/
theorem C6_no_empty_reasons_in_discussion :
    (∀ (row : OrderRow) (avg buffer factor : ℚ),
        ((discussion_reasons row avg buffer factor).1 = 4 ↔
          (discussion_reasons row avg buffer factor).2 = [])) ∧
    (∀ (name_map : String → Option String) (md : MonthlyData) (factor : ℚ)
        (source : List (OrderRow × String)) (entry : DiscussionRow),
        entry ∈ build_discussion_rows name_map md factor source →
          entry.reasons ≠ [] ∧ entry.priority ≠ 4) := by
  refine ⟨discussion_priority_four_iff, ?_⟩
  intro name_map md factor source entry hmem
  simp only [build_discussion_rows, List.mem_filterMap] at hmem
  obtain ⟨rs, _hrs, hsome⟩ := hmem
  split at hsome
  case isTrue hne =>
    obtain rfl : _ = entry := Option.some.inj hsome
    refine ⟨hne, fun h4 => hne ?_⟩
    exact (discussion_priority_four_iff rs.1 _ _ factor).mp h4
  case isFalse =>
    simp at hsome

/-- A row that fires checks 1, 3 and 4: stock below safety, zero order against
a zero average, thin next-month buffer. -/
def c6_witness_row : OrderRow := OrderRow.mk "DW-005" 3 0 0 0 5 10

/-- Witness for C6: the discussion entry produced for `c6_witness_row` has a
nonempty reasons list and priority 1 ≠ 4. -/
theorem C6_witness :
    (DiscussionRow.mk 1 "DW-005" "DW-005" 3 0 0 0 "欠品"
        ["欠品リスク", "発注量異常", "来月在庫不足"] 5 10).reasons ≠ [] ∧
    (DiscussionRow.mk 1 "DW-005" "DW-005" 3 0 0 0 "欠品"
        ["欠品リスク", "発注量異常", "来月在庫不足"] 5 10).priority ≠ 4 :=
  C6_no_empty_reasons_in_discussion.2 (fun _ => none) empty_monthly_data 1
    [(c6_witness_row, "欠品")] _
    (by norm_num [build_discussion_rows, discussion_reasons,
      calculate_normal_order_average, empty_monthly_data, c6_witness_row]; simp)

/-- A sample master item. -/
def c7_sample_item : Item := Item.mk "DW-001" "品目001" 100 500 false

/-- C7: `calculate_inventory_forecast` is not total over partially populated
monthly data — with the months "2026-01"/"2026-02" absent it raises `KeyError`
(modelled as `none`) instead of defaulting the missing fields to 0, while
`build_order_dataframe` does default every absent figure to 0. -/
theorem C7_forecast_key_error :
    calculate_inventory_forecast empty_monthly_data [c7_sample_item] = none ∧
    (∀ master_items : List Item,
        build_order_dataframe master_items empty_monthly_data (fun _ => none) (fun _ => none)
          = master_items.map (fun item =>
              OrderRow.mk item.item_id 0 0 0 0 item.safety_stock item.max_stock)) := by
  constructor
  · rfl
  · intro master_items
    simp [build_order_dataframe, calculate_future_inventory, empty_monthly_data]

/-- The concrete review figures of the claim: prior-month stock 100, incoming
20, predicted ending stock 90, actual ending stock 80. -/
def accuracy_sample_md : MonthlyData := fun month item field =>
  if item = "DW-001" then
    if month = "2025-11" ∧ field = "在庫" then some 100
    else if month = "2025-12" ∧ field = "入庫" then some 20
    else if month = "2025-12" ∧ field = "予測在庫" then some 90
    else if month = "2025-12" ∧ field = "在庫" then some 80
    else none
  else none

/-- C8: the accuracy review backs usage out of stock deltas
(usage = start + incoming − ending) for both predicted and actual figures,
defines the error rate as (actual − predicted) / predicted × 100 and as 0 when
the predicted usage is 0, and on the concrete input (100, 20, 90, 80) yields
predicted usage 30, actual usage 40, diff 10 and error rate 33.3. -/
theorem C8_prediction_accuracy (md : MonthlyData) (pm lm item : String) :
    (accuracy_row md pm lm item).predicted_usage
        = (md pm item "在庫").getD 0 + (md lm item "入庫").getD 0
            - (md lm item "予測在庫").getD 0 ∧
    (accuracy_row md pm lm item).actual_usage
        = (md pm item "在庫").getD 0 + (md lm item "入庫").getD 0
            - (md lm item "在庫").getD 0 ∧
    (accuracy_row md pm lm item).diff
        = (accuracy_row md pm lm item).actual_usage
            - (accuracy_row md pm lm item).predicted_usage ∧
    ((accuracy_row md pm lm item).predicted_usage = 0 →
      (accuracy_row md pm lm item).error_rate_pct = 0) ∧
    ((accuracy_row md pm lm item).predicted_usage ≠ 0 →
      (accuracy_row md pm lm item).error_rate_pct
        = round1 (((accuracy_row md pm lm item).actual_usage
              - (accuracy_row md pm lm item).predicted_usage)
            / (accuracy_row md pm lm item).predicted_usage * 100)) ∧
    ((accuracy_row accuracy_sample_md "2025-11" "2025-12" "DW-001").predicted_usage = 30 ∧
      (accuracy_row accuracy_sample_md "2025-11" "2025-12" "DW-001").actual_usage = 40 ∧
      (accuracy_row accuracy_sample_md "2025-11" "2025-12" "DW-001").diff = 10 ∧
      (accuracy_row accuracy_sample_md "2025-11" "2025-12" "DW-001").error_rate_pct
        = 333 / 10) := by
  refine ⟨by simp [accuracy_row], by simp [accuracy_row], by simp [accuracy_row], ?_, ?_, ?_⟩
  · intro h
    simp only [accuracy_row] at h ⊢
    rw [if_neg (not_not_intro h)]
    norm_num [round1, round_half_even]
  · intro h
    simp only [accuracy_row] at h ⊢
    rw [if_pos h]
  · simp +decide [accuracy_row, accuracy_sample_md]
    norm_num [round1, round_half_even]

/-- Witness for C8: on the concrete review figures the predicted usage is
nonzero and the error-rate formula applies. -/
theorem C8_witness :
    (accuracy_row accuracy_sample_md "2025-11" "2025-12" "DW-001").error_rate_pct
      = round1 (((accuracy_row accuracy_sample_md "2025-11" "2025-12" "DW-001").actual_usage
            - (accuracy_row accuracy_sample_md "2025-11" "2025-12" "DW-001").predicted_usage)
          / (accuracy_row accuracy_sample_md "2025-11" "2025-12" "DW-001").predicted_usage
          * 100) :=
  (C8_prediction_accuracy accuracy_sample_md "2025-11" "2025-12" "DW-001").2.2.2.2.1
    (by simp +decide [accuracy_row, accuracy_sample_md]; norm_num)

/-- C9: the usage average of the long-lead-item projection averages up to 3
figures from a fixed window — the usage forecasts of 2026-01..03 when any is
present, otherwise the historical outgoing figures of 2025-10..12, and 0 when
neither window has data. -/
theorem C9_usage_average_preference (md : MonthlyData) (item_id : String) :
    (["2026-01", "2026-02", "2026-03"].filterMap
        (fun month => md month item_id "使用量予測")).length ≤ 3 ∧
    (["2025-10", "2025-11", "2025-12"].filterMap
        (fun month => md month item_id "出庫")).length ≤ 3 ∧
    ((∃ month ∈ ["2026-01", "2026-02", "2026-03"], md month item_id "使用量予測" ≠ none) →
      calculate_usage_average md item_id
        = (["2026-01", "2026-02", "2026-03"].filterMap
              (fun month => md month item_id "使用量予測")).sum /
            ((["2026-01", "2026-02", "2026-03"].filterMap
              (fun month => md month item_id "使用量予測")).length : ℚ)) ∧
    (["2026-01", "2026-02", "2026-03"].filterMap
        (fun month => md month item_id "使用量予測") = [] →
      ["2025-10", "2025-11", "2025-12"].filterMap
        (fun month => md month item_id "出庫") ≠ [] →
      calculate_usage_average md item_id
        = (["2025-10", "2025-11", "2025-12"].filterMap
              (fun month => md month item_id "出庫")).sum /
            ((["2025-10", "2025-11", "2025-12"].filterMap
              (fun month => md month item_id "出庫")).length : ℚ)) ∧
    (["2026-01", "2026-02", "2026-03"].filterMap
        (fun month => md month item_id "使用量予測") = [] →
      ["2025-10", "2025-11", "2025-12"].filterMap
        (fun month => md month item_id "出庫") = [] →
      calculate_usage_average md item_id = 0) := by
  refine ⟨le_trans (List.length_filterMap_le _ _) (by norm_num),
    le_trans (List.length_filterMap_le _ _) (by norm_num), ?_, ?_, ?_⟩
  · rintro ⟨month, hmem, hne⟩
    have hfc : ["2026-01", "2026-02", "2026-03"].filterMap
        (fun month => md month item_id "使用量予測") ≠ [] := by
      rw [Ne, List.filterMap_eq_nil_iff]
      push_neg
      exact ⟨month, hmem, hne⟩
    simp only [calculate_usage_average, if_neg hfc]
  · intro hfc hhist
    simp only [calculate_usage_average, if_pos hfc, if_neg hhist]
  · intro hfc hhist
    simp only [calculate_usage_average, if_pos hfc, if_pos hhist]

/-- A monthly-data mapping carrying a single usage-forecast figure of 12 in
2026-02 and nothing else. -/
def c9_sample_md : MonthlyData := fun month _ field =>
  if month = "2026-02" ∧ field = "使用量予測" then some 12 else none

/-- Witness for C9: with one forecast figure present the average is the mean
of the forecast window. -/
theorem C9_witness :
    calculate_usage_average c9_sample_md "DW-777"
      = (["2026-01", "2026-02", "2026-03"].filterMap
            (fun month => c9_sample_md month "DW-777" "使用量予測")).sum /
          ((["2026-01", "2026-02", "2026-03"].filterMap
            (fun month => c9_sample_md month "DW-777" "使用量予測")).length : ℚ) :=
  (C9_usage_average_preference c9_sample_md "DW-777").2.2.1
    ⟨"2026-02", by simp, by simp [c9_sample_md]⟩

/-- C10 counterexample: in a fully empty monthly-data mapping the usage
average is itself 0, so every projected month consumes 0 and the stock level
stays constant at the starting stock — contradicting the claim that the
projection consumes the average "rather than leaving the stock level
constant". -/
theorem C10_counterexample :
    calculate_usage_average empty_monthly_data "DW-309-Mol" = 0 ∧
    (build_dw309_forecast empty_monthly_data "DW-309-Mol" 100 50 500 0).1.map
        (fun r => r.month_end) = List.replicate 8 (100 : ℚ) ∧
    (build_dw309_forecast empty_monthly_data "DW-309-Mol" 100 50 500 0).2.final_month_end
      = 100 := by
  refine ⟨rfl, ?_, ?_⟩
  · norm_num [build_dw309_forecast, dw309_schedule, dw309_months, dw309_sched_entry,
      dw309_states, dw309_rows, inject_last, empty_monthly_data, calculate_usage_average,
      round1, round_half_even, List.replicate]
  · norm_num [build_dw309_forecast, dw309_schedule, dw309_months, dw309_sched_entry,
      dw309_final, inject_last, empty_monthly_data, calculate_usage_average]

/-- C10 (amended): a month whose payload lacks the usage-forecast field
consumes the computed usage average while a missing incoming field defaults to
0; in a fully empty mapping that average is 0, so every schedule entry is
(0, 0) and the projected stock stays constant at the starting stock. -/
theorem C10_missing_usage_defaults_to_average (md : MonthlyData) (item_id month : String) :
    (md month item_id "使用量予測" = none →
      (dw309_sched_entry md item_id month).2 = calculate_usage_average md item_id) ∧
    (md month item_id (dw309_incoming_field month) = none →
      (dw309_sched_entry md item_id month).1 = 0) ∧
    (∀ entry ∈ dw309_schedule empty_monthly_data item_id, entry = (0, 0)) ∧
    (∀ current safety maxst : ℚ,
      (build_dw309_forecast empty_monthly_data item_id current safety maxst 0).2.final_month_end
        = current) := by
  refine ⟨?_, ?_, ?_, ?_⟩
  · intro h
    simp [dw309_sched_entry, h]
  · intro h
    simp [dw309_sched_entry, h]
  · intro entry hmem
    simp [dw309_schedule, dw309_months, dw309_sched_entry, empty_monthly_data,
      calculate_usage_average] at hmem
    exact hmem
  · intro current safety maxst
    show dw309_final current (inject_last (dw309_schedule empty_monthly_data item_id) 0)
        = current
    norm_num [dw309_schedule, dw309_months, dw309_sched_entry, inject_last,
      empty_monthly_data, calculate_usage_average, dw309_final]

/-- Witness for C10: an empty payload month draws its usage from the computed
usage average. -/
theorem C10_witness :
    (dw309_sched_entry empty_monthly_data "DW-321" "2026-04").2
      = calculate_usage_average empty_monthly_data "DW-321" :=
  (C10_missing_usage_defaults_to_average empty_monthly_data "DW-321" "2026-04").1 rfl
